import Mathlib

/-!
# AlphaFit backend — shallow embedding and verification

Shallow embedding of the domain computation layer of a fitness-tracking
backend (src/backend/server.py): credential/token handling, nutrition and
workout derivation formulas, day-window retrieval and aggregation, and the
registration and logging endpoints, together with theorems settling the
specification claims about them.

Modelling conventions:
* Python floats are modelled as exact rationals (ℚ); numeric literals in the
  source are exact decimals.
* Python `round(x, 2)` (round-half-to-even) is `pyRound2`; Python `int(x)`
  (truncation toward zero) is `pyTrunc`.
* Wall-clock timestamps are seconds (ℕ for entry timestamps, ℤ for token
  expiry arithmetic); `datetime.now().replace(hour=0, minute=0, second=0,
  microsecond=0)` is `midnight now`, and `datetime.fromisoformat` of a
  calendar date with day index `d` is `dateMidnight d`.
* The MongoDB collections are lists inside a `DB` record; `find` is
  `List.filter`, `find_one` is `List.find?` / `List.any`, `insert_one`
  appends, and `.to_list(1000)` is `List.take 1000`.
* `HTTPException` is the `HTTPError` record carried in `Except`; random
  UUIDs, bcrypt hashes and the current time are explicit parameters.
* JWT signing (HS256) is modelled symbolically: a token is a payload plus a
  signature string, and the HMAC is an explicit keyed function; verification
  checks the signature first (as PyJWT does) and then the `exp` claim.
-/

namespace AlphaFit

/-- Python `int(q)`: truncation toward zero on an exact rational. -/
def pyTrunc (q : ℚ) : ℤ :=
  if 0 ≤ q then ⌊q⌋ else -⌊-q⌋

/-- Round a rational to the nearest integer, ties to even (Python `round`). -/
def roundHalfEven (q : ℚ) : ℤ :=
  if q - ⌊q⌋ < 1/2 then ⌊q⌋
  else if 1/2 < q - ⌊q⌋ then ⌊q⌋ + 1
  else if ⌊q⌋ % 2 = 0 then ⌊q⌋ else ⌊q⌋ + 1

/-- Python `round(q, 2)`: round to two decimal places, ties to even. -/
def pyRound2 (q : ℚ) : ℚ := (roundHalfEven (q * 100) : ℚ) / 100

theorem floor_eval (q : ℚ) (f : ℤ) (h1 : (f : ℚ) ≤ q) (h2 : q < f + 1) : ⌊q⌋ = f := by
  rw [Int.floor_eq_iff]
  exact ⟨h1, h2⟩

theorem roundHalfEven_eq_down (q : ℚ) (f : ℤ) (h1 : (f : ℚ) ≤ q) (h2 : q - f < 1/2) :
    roundHalfEven q = f := by
  have hf : ⌊q⌋ = f := floor_eval q f h1 (by linarith)
  unfold roundHalfEven
  rw [hf, if_pos h2]

theorem roundHalfEven_eq_up (q : ℚ) (f : ℤ) (h1 : (f : ℚ) ≤ q) (h2 : q < f + 1)
    (h3 : 1/2 < q - f) : roundHalfEven q = f + 1 := by
  have hf : ⌊q⌋ = f := floor_eval q f h1 h2
  unfold roundHalfEven
  rw [hf, if_neg (by linarith), if_pos h3]

theorem pyRound2_eq_down (q : ℚ) (f : ℤ) (h1 : (f : ℚ) ≤ q * 100) (h2 : q * 100 - f < 1/2) :
    pyRound2 q = f / 100 := by
  unfold pyRound2
  rw [roundHalfEven_eq_down (q * 100) f h1 h2]

theorem pyRound2_eq_up (q : ℚ) (f : ℤ) (h1 : (f : ℚ) ≤ q * 100) (h2 : q * 100 < f + 1)
    (h3 : 1/2 < q * 100 - f) : pyRound2 q = (f + 1) / 100 := by
  unfold pyRound2
  rw [roundHalfEven_eq_up (q * 100) f h1 h2 h3]
  push_cast
  ring

theorem pyTrunc_eval (q : ℚ) (f : ℤ) (h0 : 0 ≤ q) (h1 : (f : ℚ) ≤ q) (h2 : q < f + 1) :
    pyTrunc q = f := by
  unfold pyTrunc
  rw [if_pos h0, floor_eval q f h1 h2]

/-- `HTTPException(status_code=..., detail=...)`. -/
structure HTTPError where
  status_code : ℕ
  detail : String
deriving DecidableEq

/-- The stored user document: the Pydantic `User` model plus the
`password_hash` field added before insertion. `activity_level` and
`goal_type` are string-valued enums in the source. -/
structure User where
  id : String
  username : String
  email : String
  full_name : String
  age : ℤ
  height : ℚ
  weight : ℚ
  goal_type : String
  activity_level : String
  password_hash : String
deriving DecidableEq

/-- `calculate_bmi(weight, height)`: `round(weight / ((height / 100) ** 2), 2)`.
Python float division by zero raises `ZeroDivisionError`; that crash is
modelled as `none`. -/
def calculate_bmi (weight height : ℚ) : Option ℚ :=
  if (height / 100) ^ 2 = 0 then none
  else some (pyRound2 (weight / (height / 100) ^ 2))

/-- The `activity_multiplier` dictionary lookup with `.get(level, 1.2)`:
the five recognised activity levels, any other level defaulting to 1.2. -/
def activity_multiplier (level : String) : ℚ :=
  if level = "sedentary" then 1.2
  else if level = "lightly_active" then 1.375
  else if level = "moderately_active" then 1.55
  else if level = "very_active" then 1.725
  else if level = "extremely_active" then 1.9
  else 1.2

/-- `calculate_daily_calories(user)`: Mifflin-St Jeor BMR times the activity
multiplier, truncated to an integer; the Python truthiness guard
`if user.age and user.weight and user.height` means all three nonzero,
otherwise the fixed fallback 2000. -/
def calculate_daily_calories (user : User) : ℤ :=
  if user.age ≠ 0 ∧ user.weight ≠ 0 ∧ user.height ≠ 0 then
    pyTrunc ((10 * user.weight + 6.25 * user.height - 5 * (user.age : ℚ) + 5) *
      activity_multiplier user.activity_level)
  else 2000

/-- The `JWT_SECRET` default from the source environment lookup. -/
def JWT_SECRET : String := "your-secret-key-here"

/-- The JWT claims written by `create_jwt_token`: the account id and the
absolute expiry timestamp. -/
structure JwtPayload where
  user_id : String
  exp : ℤ
deriving DecidableEq

/-- A signed token: payload plus signature string. -/
structure Jwt where
  payload : JwtPayload
  sig : String
deriving DecidableEq

/-- Symbolic HS256 HMAC over the payload, keyed by the secret. -/
def hmac_sign (secret : String) (p : JwtPayload) : String :=
  secret ++ ":" ++ p.user_id ++ ":" ++ toString p.exp

/-- `create_jwt_token(user_id)`: payload `{user_id, exp = now + 24h}`,
signed with `JWT_SECRET`. -/
def create_jwt_token (now : ℤ) (user_id : String) : Jwt :=
  { payload := { user_id := user_id, exp := now + 24 * 3600 }
    sig := hmac_sign JWT_SECRET { user_id := user_id, exp := now + 24 * 3600 } }

/-- `verify_jwt_token(token)`: PyJWT checks the signature first (any
mutation surfaces as `InvalidTokenError` → 401 "Invalid token"), then the
`exp` claim (`exp ≤ now` raises `ExpiredSignatureError` → 401
"Token expired"); on success it returns `payload["user_id"]`. -/
def verify_jwt_token (now : ℤ) (token : Jwt) : Except HTTPError String :=
  if token.sig = hmac_sign JWT_SECRET token.payload then
    if token.payload.exp ≤ now then
      Except.error { status_code := 401, detail := "Token expired" }
    else
      Except.ok token.payload.user_id
  else
    Except.error { status_code := 401, detail := "Invalid token" }

/-- `UserCreate`: the registration request body. -/
structure UserCreate where
  username : String
  email : String
  password : String
  full_name : String
  age : ℤ
  height : ℚ
  weight : ℚ
  goal_type : String
  activity_level : String
deriving DecidableEq

/-- `UserProfile`: the profile payload returned by register/login/profile.
`bmi` is an `Option` because `calculate_bmi` can hit a division by zero. -/
structure UserProfile where
  id : String
  username : String
  email : String
  full_name : String
  age : ℤ
  height : ℚ
  weight : ℚ
  goal_type : String
  activity_level : String
  bmi : Option ℚ
  daily_calories : ℤ
deriving DecidableEq

/-- `FoodItem`: catalog entry with per-100g macro densities. -/
structure FoodItem where
  id : String
  name : String
  calories_per_100g : ℚ
  protein_per_100g : ℚ
  carbs_per_100g : ℚ
  fat_per_100g : ℚ
  fiber_per_100g : ℚ
deriving DecidableEq

/-- `MealEntry`: a logged meal with its derived nutrition snapshot. -/
structure MealEntry where
  id : String
  user_id : String
  food_item_id : String
  food_name : String
  quantity : ℚ
  calories : ℚ
  protein : ℚ
  carbs : ℚ
  fat : ℚ
  meal_type : String
  logged_at : ℕ
deriving DecidableEq

/-- `MealEntryCreate`: the meal-log request body. -/
structure MealEntryCreate where
  food_item_id : String
  quantity : ℚ
  meal_type : String
deriving DecidableEq

/-- `Exercise`: catalog entry with a per-minute calorie-burn rate. -/
structure Exercise where
  id : String
  name : String
  type : String
  muscle_groups : List String
  description : String
  instructions : List String
  calories_per_minute : ℚ
deriving DecidableEq

/-- `WorkoutEntry`: a logged workout with its derived calorie burn. -/
structure WorkoutEntry where
  id : String
  user_id : String
  exercise_id : String
  exercise_name : String
  duration : ℤ
  calories_burned : ℚ
  sets : Option ℤ
  reps : Option ℤ
  weight : Option ℚ
  notes : Option String
  completed_at : ℕ
deriving DecidableEq

/-- `WorkoutEntryCreate`: the workout-log request body. -/
structure WorkoutEntryCreate where
  exercise_id : String
  duration : ℤ
  sets : Option ℤ
  reps : Option ℤ
  weight : Option ℚ
  notes : Option String
deriving DecidableEq

/-- `Goal`: a per-account goal document. -/
structure Goal where
  id : String
  user_id : String
  goal_type : String
  target_weight : Option ℚ
  target_date : Option ℕ
  current_progress : ℚ
  is_achieved : Bool
deriving DecidableEq

/-- The MongoDB database: one list per collection. -/
structure DB where
  users : List User
  food_items : List FoodItem
  meal_entries : List MealEntry
  exercises : List Exercise
  workout_entries : List WorkoutEntry
  goals : List Goal
deriving DecidableEq

/-- `register_user(user_data)`: reject with 400 when a user with the same
username or email already exists (`find_one` with `$or`); otherwise insert
the new user (with `password_hash`) and return a fresh token plus the
profile with derived BMI and daily calories. The generated UUID, bcrypt
hash and current time are explicit parameters. -/
def register_user (db : DB) (user_data : UserCreate) (new_id hashed_password : String)
    (now : ℤ) : Except HTTPError (DB × Jwt × UserProfile) :=
  if db.users.any (fun u => decide (u.username = user_data.username ∨ u.email = user_data.email))
  then
    Except.error { status_code := 400, detail := "Username or email already exists" }
  else
    let user : User :=
      { id := new_id
        username := user_data.username
        email := user_data.email
        full_name := user_data.full_name
        age := user_data.age
        height := user_data.height
        weight := user_data.weight
        goal_type := user_data.goal_type
        activity_level := user_data.activity_level
        password_hash := hashed_password }
    Except.ok ({ db with users := db.users ++ [user] }, create_jwt_token now new_id,
      { id := user.id
        username := user.username
        email := user.email
        full_name := user.full_name
        age := user.age
        height := user.height
        weight := user.weight
        goal_type := user.goal_type
        activity_level := user.activity_level
        bmi := calculate_bmi user.weight user.height
        daily_calories := calculate_daily_calories user })

/-- `log_meal(meal_data)`: look up the food item (404 when absent), scale
its per-100g densities by `quantity / 100`, round each to 2 decimals, and
insert the entry. -/
def log_meal (db : DB) (current_user_id : String) (meal_data : MealEntryCreate)
    (new_id : String) (now : ℕ) : Except HTTPError (DB × MealEntry) :=
  match db.food_items.find? (fun f => decide (f.id = meal_data.food_item_id)) with
  | none => Except.error { status_code := 404, detail := "Food item not found" }
  | some food_item =>
    let meal_entry : MealEntry :=
      { id := new_id
        user_id := current_user_id
        food_item_id := meal_data.food_item_id
        food_name := food_item.name
        quantity := meal_data.quantity
        calories := pyRound2 (food_item.calories_per_100g * (meal_data.quantity / 100))
        protein := pyRound2 (food_item.protein_per_100g * (meal_data.quantity / 100))
        carbs := pyRound2 (food_item.carbs_per_100g * (meal_data.quantity / 100))
        fat := pyRound2 (food_item.fat_per_100g * (meal_data.quantity / 100))
        meal_type := meal_data.meal_type
        logged_at := now }
    Except.ok ({ db with meal_entries := db.meal_entries ++ [meal_entry] }, meal_entry)

/-- `log_workout(workout_data)`: look up the exercise (404 when absent),
multiply its per-minute rate by the duration, round to 2 decimals, and
insert the entry. -/
def log_workout (db : DB) (current_user_id : String) (workout_data : WorkoutEntryCreate)
    (new_id : String) (now : ℕ) : Except HTTPError (DB × WorkoutEntry) :=
  match db.exercises.find? (fun ex => decide (ex.id = workout_data.exercise_id)) with
  | none => Except.error { status_code := 404, detail := "Exercise not found" }
  | some exercise =>
    let workout_entry : WorkoutEntry :=
      { id := new_id
        user_id := current_user_id
        exercise_id := workout_data.exercise_id
        exercise_name := exercise.name
        duration := workout_data.duration
        calories_burned := pyRound2 (exercise.calories_per_minute * (workout_data.duration : ℚ))
        sets := workout_data.sets
        reps := workout_data.reps
        weight := workout_data.weight
        notes := workout_data.notes
        completed_at := now }
    Except.ok ({ db with workout_entries := db.workout_entries ++ [workout_entry] }, workout_entry)

/-- Seconds per calendar day. -/
def secondsPerDay : ℕ := 86400

/-- `datetime.now().replace(hour=0, minute=0, second=0, microsecond=0)`:
midnight at the start of the current day. -/
def midnight (now : ℕ) : ℕ := secondsPerDay * (now / secondsPerDay)

/-- `datetime.fromisoformat(date)` for a calendar-date string: midnight at
the start of day `d`. -/
def dateMidnight (d : ℕ) : ℕ := secondsPerDay * d

/-- The `[start_date, end_date)` window computed inside `get_meal_log`. -/
def meal_log_window (date : Option ℕ) (now : ℕ) : ℕ × ℕ :=
  let start_date := match date with
    | some d => dateMidnight d
    | none => midnight now
  (start_date, start_date + secondsPerDay)

/-- The `[start_date, end_date)` window computed inside
`get_daily_nutrition_summary`. -/
def nutrition_summary_window (date : Option ℕ) (now : ℕ) : ℕ × ℕ :=
  let start_date := match date with
    | some d => dateMidnight d
    | none => midnight now
  (start_date, start_date + secondsPerDay)

/-- The `[start_date, end_date)` window computed inside `get_workout_log`. -/
def workout_log_window (date : Option ℕ) (now : ℕ) : ℕ × ℕ :=
  let start_date := match date with
    | some d => dateMidnight d
    | none => midnight now
  (start_date, start_date + secondsPerDay)

/-- The `[today, tomorrow)` window computed inside `get_dashboard_stats`. -/
def dashboard_window (now : ℕ) : ℕ × ℕ :=
  (midnight now, midnight now + secondsPerDay)

/-- Membership in a half-open `[start, end)` window. -/
def inWindow (w : ℕ × ℕ) (t : ℕ) : Prop := w.1 ≤ t ∧ t < w.2

instance (w : ℕ × ℕ) (t : ℕ) : Decidable (inWindow w t) :=
  inferInstanceAs (Decidable (_ ∧ _))

/-- `get_meal_log(date)`: the user's meal entries whose `logged_at` falls in
the day window, `to_list(1000)`. -/
def get_meal_log (db : DB) (date : Option ℕ) (now : ℕ) (current_user_id : String) :
    List MealEntry :=
  let w := meal_log_window date now
  (db.meal_entries.filter (fun e =>
    decide (e.user_id = current_user_id ∧ w.1 ≤ e.logged_at ∧ e.logged_at < w.2))).take 1000

/-- The aggregate returned by `get_daily_nutrition_summary`. -/
structure NutritionSummary where
  total_calories : ℚ
  total_protein : ℚ
  total_carbs : ℚ
  total_fat : ℚ
  meal_count : ℕ
deriving DecidableEq

/-- `get_daily_nutrition_summary(date)`: grouped sums of the derived
nutrition fields over the user's meal entries in the day window; the empty
group yields the all-zero summary. -/
def get_daily_nutrition_summary (db : DB) (date : Option ℕ) (now : ℕ)
    (current_user_id : String) : NutritionSummary :=
  let w := nutrition_summary_window date now
  let matched := db.meal_entries.filter (fun e =>
    decide (e.user_id = current_user_id ∧ w.1 ≤ e.logged_at ∧ e.logged_at < w.2))
  { total_calories := (matched.map MealEntry.calories).sum
    total_protein := (matched.map MealEntry.protein).sum
    total_carbs := (matched.map MealEntry.carbs).sum
    total_fat := (matched.map MealEntry.fat).sum
    meal_count := matched.length }

/-- `get_workout_log(date)`: the user's workout entries whose `completed_at`
falls in the day window, `to_list(1000)`. -/
def get_workout_log (db : DB) (date : Option ℕ) (now : ℕ) (current_user_id : String) :
    List WorkoutEntry :=
  let w := workout_log_window date now
  (db.workout_entries.filter (fun e =>
    decide (e.user_id = current_user_id ∧ w.1 ≤ e.completed_at ∧ e.completed_at < w.2))).take 1000

/-- `get_food_items()`: the whole food catalog, `to_list(1000)`. -/
def get_food_items (db : DB) : List FoodItem :=
  db.food_items.take 1000

/-- `get_exercises(exercise_type)`: the exercise catalog, optionally
filtered by type, `to_list(1000)`. -/
def get_exercises (db : DB) (exercise_type : Option String) : List Exercise :=
  (db.exercises.filter (fun ex =>
    match exercise_type with
    | some t => decide (ex.type = t)
    | none => true)).take 1000

/-- `get_user_goals()`: the user's goals, `to_list(1000)`. -/
def get_user_goals (db : DB) (current_user_id : String) : List Goal :=
  (db.goals.filter (fun g => decide (g.user_id = current_user_id))).take 1000

/-- The composite returned by `get_dashboard_stats`. -/
structure DashboardStats where
  nutrition : NutritionSummary
  total_calories_burned : ℚ
  total_workout_time : ℤ
  workout_count : ℕ
  active_goals_count : ℕ
deriving DecidableEq

/-- `get_dashboard_stats()`: today's nutrition summary (delegated with no
date), today's workouts (windowed on `completed_at`, `to_list(1000)`),
and the count of unachieved goals (`to_list(1000)`). -/
def get_dashboard_stats (db : DB) (now : ℕ) (current_user_id : String) : DashboardStats :=
  let w := dashboard_window now
  let workout_entries := (db.workout_entries.filter (fun e =>
    decide (e.user_id = current_user_id ∧ w.1 ≤ e.completed_at ∧ e.completed_at < w.2))).take 1000
  let active_goals := (db.goals.filter (fun g =>
    decide (g.user_id = current_user_id ∧ g.is_achieved = false))).take 1000
  { nutrition := get_daily_nutrition_summary db none now current_user_id
    total_calories_burned := pyRound2 (workout_entries.map WorkoutEntry.calories_burned).sum
    total_workout_time := (workout_entries.map WorkoutEntry.duration).sum
    workout_count := workout_entries.length
    active_goals_count := active_goals.length }

/-! ## Concrete sample data used by witnesses and counterexamples -/

/-- A sample registered user (the values exercised by the repository's own
test script). -/
def userDemo : User :=
  { id := "u1", username := "alice", email := "alice@example.com", full_name := "Alice A",
    age := 25, height := 175, weight := 70, goal_type := "maintenance",
    activity_level := "moderately_active", password_hash := "h1" }

/-- A sample catalog food item (from the seed data). -/
def foodDemo : FoodItem :=
  { id := "f1", name := "Chicken Breast", calories_per_100g := 165, protein_per_100g := 31,
    carbs_per_100g := 0, fat_per_100g := 3.6, fiber_per_100g := 0 }

/-- A sample catalog exercise (from the seed data). -/
def exerciseDemo : Exercise :=
  { id := "e1", name := "Push-ups", type := "strength", muscle_groups := ["chest"],
    description := "Classic bodyweight exercise", instructions := ["Start in plank position"],
    calories_per_minute := 8 }

/-- A database holding the sample catalog entries. -/
def dbDemo : DB :=
  { users := [], food_items := [foodDemo], meal_entries := [], exercises := [exerciseDemo],
    workout_entries := [], goals := [] }

/-! ## Claim C1 — daily-calorie computation -/

/-- Claim C1 (amended): for every account with age, weight and height all
nonzero, `calculate_daily_calories` returns the truncated product of the
Mifflin-St Jeor BMR `10*weight + 6.25*height - 5*age + 5` with the activity
multiplier (1.2, 1.375, 1.55, 1.725, 1.9 for the five recognised levels,
1.2 for any other level); with any of the three zero it returns 2000. For
age=25, weight=70, height=175, moderately_active the value is 2594 (the
claim's stated 2607 rests on a wrong intermediate 1682.5 for the BMR; the
formula gives 1673.75). -/
theorem daily_calories_formula (user : User) :
    (user.age ≠ 0 ∧ user.weight ≠ 0 ∧ user.height ≠ 0 →
      calculate_daily_calories user =
        pyTrunc ((10 * user.weight + 6.25 * user.height - 5 * (user.age : ℚ) + 5) *
          activity_multiplier user.activity_level)) ∧
    (user.age = 0 ∨ user.weight = 0 ∨ user.height = 0 →
      calculate_daily_calories user = 2000) ∧
    activity_multiplier "sedentary" = 1.2 ∧
    activity_multiplier "lightly_active" = 1.375 ∧
    activity_multiplier "moderately_active" = 1.55 ∧
    activity_multiplier "very_active" = 1.725 ∧
    activity_multiplier "extremely_active" = 1.9 ∧
    (user.activity_level ∉ (["sedentary", "lightly_active", "moderately_active",
        "very_active", "extremely_active"] : List String) →
      activity_multiplier user.activity_level = 1.2) ∧
    calculate_daily_calories userDemo = 2594 := by
  refine ⟨?_, ?_, ?_, ?_, ?_, ?_, ?_, ?_, ?_⟩
  · intro h
    unfold calculate_daily_calories
    rw [if_pos h]
  · intro h
    unfold calculate_daily_calories
    rw [if_neg (by tauto)]
  · simp [activity_multiplier]
  · simp [activity_multiplier]
  · simp [activity_multiplier]
  · simp [activity_multiplier]
  · simp [activity_multiplier]
  · intro h
    simp only [List.mem_cons, List.not_mem_nil, or_false] at h
    push_neg at h
    obtain ⟨h1, h2, h3, h4, h5⟩ := h
    simp [activity_multiplier, h1, h2, h3, h4, h5]
  · unfold calculate_daily_calories
    rw [if_pos (by simp [userDemo])]
    rw [show userDemo.activity_level = "moderately_active" from rfl]
    rw [show activity_multiplier "moderately_active" = 1.55 from by simp [activity_multiplier]]
    simp only [userDemo]
    exact pyTrunc_eval _ 2594 (by norm_num) (by norm_num) (by norm_num)

/-- Claim C1, witness: the fallback and formula cases at concrete users. -/
theorem daily_calories_formula_witness :
    calculate_daily_calories { userDemo with age := 0 } = 2000 ∧
    calculate_daily_calories userDemo =
      pyTrunc ((10 * userDemo.weight + 6.25 * userDemo.height - 5 * (userDemo.age : ℚ) + 5) *
        activity_multiplier userDemo.activity_level) :=
  ⟨(daily_calories_formula { userDemo with age := 0 }).2.1 (Or.inl rfl),
   (daily_calories_formula userDemo).1 (by simp [userDemo])⟩

/-- Claim C1, counterexample to the stated concrete value: the account with
age=25, weight=70, height=175 and moderately_active yields 2594, not the
2607 the claim asserts. -/
theorem daily_calories_example_disagrees :
    calculate_daily_calories userDemo = 2594 ∧ (2594 : ℤ) ≠ 2607 := by
  constructor
  · unfold calculate_daily_calories
    rw [if_pos (by simp [userDemo])]
    rw [show userDemo.activity_level = "moderately_active" from rfl]
    rw [show activity_multiplier "moderately_active" = 1.55 from by simp [activity_multiplier]]
    simp only [userDemo]
    exact pyTrunc_eval _ 2594 (by norm_num) (by norm_num) (by norm_num)
  · decide

/-! ## Claims C6, C7 — BMI -/

/-- Claim C6 (amended): `calculate_bmi` fails to return a result exactly
when height = 0 (a `ZeroDivisionError`); for negative height the square of
`height / 100` is positive, so a defined value is returned. -/
theorem bmi_rejects_only_zero_height (w h : ℚ) :
    calculate_bmi w h = none ↔ h = 0 := by
  have hc : (h / 100) ^ 2 = 0 ↔ h = 0 := by
    rw [pow_eq_zero_iff (by norm_num : (2 : ℕ) ≠ 0), div_eq_zero_iff]
    simp
  unfold calculate_bmi
  split_ifs with h1
  · simp [hc.mp h1]
  · simp only [reduceCtorEq, false_iff]
    exact fun hh => h1 (hc.mpr hh)

/-- Claim C6, counterexample: height −175 satisfies height ≤ 0 but
`calculate_bmi` returns the defined value 22.86 for it, so the operation
does not reject every height ≤ 0. -/
theorem bmi_defined_at_negative_height :
    ((-175 : ℚ) ≤ 0) ∧ calculate_bmi 70 (-175) = some 22.86 := by
  constructor
  · norm_num
  · unfold calculate_bmi
    rw [if_neg (by norm_num)]
    rw [pyRound2_eq_up _ 2285 (by norm_num) (by norm_num) (by norm_num)]
    norm_num

/-- Claim C7: for positive height, `calculate_bmi` returns
`weight / (height/100)^2` rounded to two decimals, and in particular
`calculate_bmi 70 175 = 22.86`. -/
theorem bmi_spec (w h : ℚ) (hpos : 0 < h) :
    calculate_bmi w h = some (pyRound2 (w / (h / 100) ^ 2)) ∧
    calculate_bmi 70 175 = some 22.86 := by
  constructor
  · unfold calculate_bmi
    rw [if_neg (by positivity)]
  · unfold calculate_bmi
    rw [if_neg (by norm_num)]
    rw [pyRound2_eq_up _ 2285 (by norm_num) (by norm_num) (by norm_num)]
    norm_num

/-- Claim C7, witness: the theorem applied at weight 70, height 175. -/
theorem bmi_spec_witness : calculate_bmi 70 175 = some 22.86 :=
  (bmi_spec 70 175 (by norm_num)).2

/-! ## Claims C2, C3 — token issuance and verification -/

/-- Claim C2: verifying a freshly issued token before 24 hours have elapsed
succeeds and returns the account id it was issued for. -/
theorem token_roundtrip (user_id : String) (issue_time check_time : ℤ)
    (h : check_time < issue_time + 24 * 3600) :
    verify_jwt_token check_time (create_jwt_token issue_time user_id) =
      Except.ok user_id := by
  unfold verify_jwt_token create_jwt_token
  rw [if_pos rfl, if_neg (by simp only []; omega)]

/-- Claim C2, witness: round trip at issuance time 0. -/
theorem token_roundtrip_witness :
    verify_jwt_token 0 (create_jwt_token 0 "u1") = Except.ok "u1" :=
  token_roundtrip "u1" 0 0 (by norm_num)

/-- Claim C3: verification fails closed with a 401. A genuinely issued
token checked after issuance + 24h yields the "Token expired" error; any
token whose signature does not match its payload yields the
"Invalid token" error; and in either situation no account id is ever
returned. -/
theorem verify_fails_closed :
    (∀ (user_id : String) (issue_time check_time : ℤ),
      issue_time + 24 * 3600 < check_time →
      verify_jwt_token check_time (create_jwt_token issue_time user_id) =
        Except.error { status_code := 401, detail := "Token expired" }) ∧
    (∀ (token : Jwt) (check_time : ℤ),
      token.sig ≠ hmac_sign JWT_SECRET token.payload →
      verify_jwt_token check_time token =
        Except.error { status_code := 401, detail := "Invalid token" }) ∧
    (∀ (token : Jwt) (check_time : ℤ) (uid : String),
      (token.payload.exp ≤ check_time ∨ token.sig ≠ hmac_sign JWT_SECRET token.payload) →
      verify_jwt_token check_time token ≠ Except.ok uid) := by
  refine ⟨?_, ?_, ?_⟩
  · intro user_id issue_time check_time h
    unfold verify_jwt_token create_jwt_token
    rw [if_pos rfl, if_pos (by simp only []; omega)]
  · intro token check_time h
    unfold verify_jwt_token
    rw [if_neg h]
  · intro token check_time uid h
    unfold verify_jwt_token
    rcases h with h | h
    · rcases Classical.em (token.sig = hmac_sign JWT_SECRET token.payload) with hs | hs
      · rw [if_pos hs, if_pos h]
        exact fun hc => Except.noConfusion hc
      · rw [if_neg hs]
        exact fun hc => Except.noConfusion hc
    · rw [if_neg h]
      exact fun hc => Except.noConfusion hc

/-- Claim C3, witness: the expired case for a token issued at time 0 and
checked 100000 seconds later, the invalid case for a token with a forged
signature, and the non-return of an id in the expired case. -/
theorem verify_fails_closed_witness :
    verify_jwt_token 100000 (create_jwt_token 0 "u1") =
      Except.error { status_code := 401, detail := "Token expired" } ∧
    verify_jwt_token 0 { payload := { user_id := "u1", exp := 500 }, sig := "forged" } =
      Except.error { status_code := 401, detail := "Invalid token" } ∧
    verify_jwt_token 100000 (create_jwt_token 0 "u1") ≠ Except.ok "u1" :=
  ⟨verify_fails_closed.1 "u1" 0 100000 (by norm_num),
   verify_fails_closed.2.1 { payload := { user_id := "u1", exp := 500 }, sig := "forged" } 0
     (by decide),
   verify_fails_closed.2.2 (create_jwt_token 0 "u1") 100000 "u1"
     (Or.inl (by simp [create_jwt_token]))⟩

/-! ## Claims C4, C9 — logged entries and their derived fields -/

/-- Claim C4: on every successful log operation the stored derived fields
equal the catalog rate scaled by the logged amount, rounded to 2 decimals:
meal calories/protein/carbs/fat are the per-100g densities times
quantity/100, and workout calories burned is the per-minute rate times the
duration; in particular 165 per 100g at quantity 150 gives 247.5, and rate
8 over 30 minutes gives 240. -/
theorem derived_fields_scale :
    (∀ (db : DB) (uid : String) (md : MealEntryCreate) (nid : String) (now : ℕ)
        (db2 : DB) (e : MealEntry) (f : FoodItem),
      db.food_items.find? (fun x => decide (x.id = md.food_item_id)) = some f →
      log_meal db uid md nid now = Except.ok (db2, e) →
      e.calories = pyRound2 (f.calories_per_100g * (md.quantity / 100)) ∧
      e.protein = pyRound2 (f.protein_per_100g * (md.quantity / 100)) ∧
      e.carbs = pyRound2 (f.carbs_per_100g * (md.quantity / 100)) ∧
      e.fat = pyRound2 (f.fat_per_100g * (md.quantity / 100))) ∧
    (∀ (db : DB) (uid : String) (wd : WorkoutEntryCreate) (nid : String) (now : ℕ)
        (db2 : DB) (wo : WorkoutEntry) (ex : Exercise),
      db.exercises.find? (fun x => decide (x.id = wd.exercise_id)) = some ex →
      log_workout db uid wd nid now = Except.ok (db2, wo) →
      wo.calories_burned = pyRound2 (ex.calories_per_minute * (wd.duration : ℚ))) ∧
    pyRound2 ((165 : ℚ) * (150 / 100)) = 247.5 ∧
    pyRound2 ((8 : ℚ) * (30 : ℚ)) = 240 := by
  refine ⟨?_, ?_, ?_, ?_⟩
  · intro db uid md nid now db2 e f hfind hlog
    unfold log_meal at hlog
    rw [hfind] at hlog
    simp only [Except.ok.injEq, Prod.mk.injEq] at hlog
    obtain ⟨-, rfl⟩ := hlog
    exact ⟨rfl, rfl, rfl, rfl⟩
  · intro db uid wd nid now db2 wo ex hfind hlog
    unfold log_workout at hlog
    rw [hfind] at hlog
    simp only [Except.ok.injEq, Prod.mk.injEq] at hlog
    obtain ⟨-, rfl⟩ := hlog
    rfl
  · rw [pyRound2_eq_down _ 24750 (by norm_num) (by norm_num)]
    norm_num
  · rw [pyRound2_eq_down _ 24000 (by norm_num) (by norm_num)]
    norm_num

/-- The entry created by logging 150 g of the sample food item. -/
def mealDemoEntry : MealEntry :=
  { id := "m1", user_id := "u1", food_item_id := "f1", food_name := "Chicken Breast",
    quantity := 150,
    calories := pyRound2 (165 * (150 / 100)), protein := pyRound2 (31 * (150 / 100)),
    carbs := pyRound2 (0 * (150 / 100)), fat := pyRound2 (3.6 * (150 / 100)),
    meal_type := "lunch", logged_at := 0 }

/-- The entry created by logging 30 minutes of the sample exercise. -/
def workoutDemoEntry : WorkoutEntry :=
  { id := "w1", user_id := "u1", exercise_id := "e1", exercise_name := "Push-ups",
    duration := 30, calories_burned := pyRound2 (8 * (30 : ℚ)),
    sets := none, reps := none, weight := none, notes := none, completed_at := 0 }

/-- Claim C4, witness: the scaling equations at the sample food item
(165 kcal per 100 g, quantity 150) and sample exercise (rate 8, 30 min). -/
theorem derived_fields_scale_witness :
    mealDemoEntry.calories = pyRound2 (foodDemo.calories_per_100g * ((150 : ℚ) / 100)) ∧
    workoutDemoEntry.calories_burned =
      pyRound2 (exerciseDemo.calories_per_minute * ((30 : ℤ) : ℚ)) :=
  ⟨(derived_fields_scale.1 dbDemo "u1" { food_item_id := "f1", quantity := 150, meal_type := "lunch" }
      "m1" 0 { dbDemo with meal_entries := [mealDemoEntry] } mealDemoEntry foodDemo rfl rfl).1,
   derived_fields_scale.2.1 dbDemo "u1"
      { exercise_id := "e1", duration := 30, sets := none, reps := none, weight := none, notes := none }
      "w1" 0 { dbDemo with workout_entries := [workoutDemoEntry] } workoutDemoEntry exerciseDemo
      rfl rfl⟩

/-- Claim C9 (amended): the log operations store the request's quantity and
duration unchanged; they perform no positivity validation, so an entry with
non-positive quantity or duration is created whenever the referenced catalog
item exists. -/
theorem log_stores_request_amount :
    (∀ (db : DB) (uid : String) (md : MealEntryCreate) (nid : String) (now : ℕ)
        (db2 : DB) (e : MealEntry),
      log_meal db uid md nid now = Except.ok (db2, e) → e.quantity = md.quantity) ∧
    (∀ (db : DB) (uid : String) (wd : WorkoutEntryCreate) (nid : String) (now : ℕ)
        (db2 : DB) (wo : WorkoutEntry),
      log_workout db uid wd nid now = Except.ok (db2, wo) → wo.duration = wd.duration) := by
  constructor
  · intro db uid md nid now db2 e hlog
    unfold log_meal at hlog
    cases hf : db.food_items.find? (fun f => decide (f.id = md.food_item_id)) with
    | none =>
      rw [hf] at hlog
      exact absurd hlog (by simp)
    | some f =>
      rw [hf] at hlog
      simp only [Except.ok.injEq, Prod.mk.injEq] at hlog
      obtain ⟨-, rfl⟩ := hlog
      rfl
  · intro db uid wd nid now db2 wo hlog
    unfold log_workout at hlog
    cases hf : db.exercises.find? (fun ex => decide (ex.id = wd.exercise_id)) with
    | none =>
      rw [hf] at hlog
      exact absurd hlog (by simp)
    | some ex =>
      rw [hf] at hlog
      simp only [Except.ok.injEq, Prod.mk.injEq] at hlog
      obtain ⟨-, rfl⟩ := hlog
      rfl

/-- The entry created by logging a negative quantity of the sample food. -/
def mealNegEntry : MealEntry :=
  { id := "m2", user_id := "u1", food_item_id := "f1", food_name := "Chicken Breast",
    quantity := -50,
    calories := pyRound2 (165 * (-50 / 100)), protein := pyRound2 (31 * (-50 / 100)),
    carbs := pyRound2 (0 * (-50 / 100)), fat := pyRound2 (3.6 * (-50 / 100)),
    meal_type := "lunch", logged_at := 0 }

/-- The entry created by logging a zero-minute workout. -/
def workoutZeroEntry : WorkoutEntry :=
  { id := "w2", user_id := "u1", exercise_id := "e1", exercise_name := "Push-ups",
    duration := 0, calories_burned := pyRound2 (8 * (0 : ℚ)),
    sets := none, reps := none, weight := none, notes := none, completed_at := 0 }

/-- Claim C9, counterexample: logging quantity −50 of the sample food and a
0-minute workout both succeed, creating stored entries with non-positive
quantity and duration. -/
theorem log_accepts_nonpositive :
    log_meal dbDemo "u1" { food_item_id := "f1", quantity := -50, meal_type := "lunch" } "m2" 0 =
      Except.ok ({ dbDemo with meal_entries := [mealNegEntry] }, mealNegEntry) ∧
    mealNegEntry.quantity ≤ 0 ∧
    log_workout dbDemo "u1"
        { exercise_id := "e1", duration := 0, sets := none, reps := none, weight := none,
          notes := none } "w2" 0 =
      Except.ok ({ dbDemo with workout_entries := [workoutZeroEntry] }, workoutZeroEntry) ∧
    workoutZeroEntry.duration ≤ 0 := by
  refine ⟨rfl, by norm_num [mealNegEntry], rfl, by norm_num [workoutZeroEntry]⟩

/-- Claim C9, witness: the amended theorem applied to the non-positive
sample logs. -/
theorem log_stores_request_amount_witness :
    mealNegEntry.quantity = (-50 : ℚ) ∧ workoutZeroEntry.duration = (0 : ℤ) :=
  ⟨log_stores_request_amount.1 dbDemo "u1"
      { food_item_id := "f1", quantity := -50, meal_type := "lunch" } "m2" 0
      { dbDemo with meal_entries := [mealNegEntry] } mealNegEntry rfl,
   log_stores_request_amount.2 dbDemo "u1"
      { exercise_id := "e1", duration := 0, sets := none, reps := none, weight := none,
        notes := none } "w2" 0
      { dbDemo with workout_entries := [workoutZeroEntry] } workoutZeroEntry rfl⟩

/-! ## Claim C5 — the shared half-open day window -/

/-- The empty database. -/
def emptyDB : DB :=
  { users := [], food_items := [], meal_entries := [], exercises := [],
    workout_entries := [], goals := [] }

/-- Claim C5: every log-retrieval and summary operation uses the identical
half-open day window `[dayStart, dayStart + 24h)` — dayStart is midnight of
the supplied calendar date, or midnight of the current day when absent — and
an entry timestamped exactly at dayStart is included while one at
dayStart + 24h is excluded. -/
theorem day_window_shared :
    (∀ (date : Option ℕ) (now : ℕ),
      meal_log_window date now = nutrition_summary_window date now ∧
      meal_log_window date now = workout_log_window date now) ∧
    (∀ now : ℕ, dashboard_window now = meal_log_window none now) ∧
    (∀ (d now : ℕ),
      meal_log_window (some d) now = (dateMidnight d, dateMidnight d + secondsPerDay)) ∧
    (∀ now : ℕ, meal_log_window none now = (midnight now, midnight now + secondsPerDay)) ∧
    (∀ (db : DB) (date : Option ℕ) (now : ℕ) (uid : String),
      get_meal_log db date now uid = (db.meal_entries.filter (fun e =>
        decide (e.user_id = uid ∧ inWindow (meal_log_window date now) e.logged_at))).take 1000) ∧
    (∀ (db : DB) (date : Option ℕ) (now : ℕ) (uid : String),
      (get_daily_nutrition_summary db date now uid).meal_count =
        (db.meal_entries.filter (fun e =>
          decide (e.user_id = uid ∧
            inWindow (nutrition_summary_window date now) e.logged_at))).length) ∧
    (∀ (db : DB) (date : Option ℕ) (now : ℕ) (uid : String),
      get_workout_log db date now uid = (db.workout_entries.filter (fun e =>
        decide (e.user_id = uid ∧
          inWindow (workout_log_window date now) e.completed_at))).take 1000) ∧
    (∀ (date : Option ℕ) (now : ℕ) (e : MealEntry),
      e.user_id = "u1" → e.logged_at = (meal_log_window date now).1 →
      get_meal_log { emptyDB with meal_entries := [e] } date now "u1" = [e]) ∧
    (∀ (date : Option ℕ) (now : ℕ) (e : MealEntry),
      e.logged_at = (meal_log_window date now).1 + secondsPerDay →
      get_meal_log { emptyDB with meal_entries := [e] } date now "u1" = []) := by
  refine ⟨fun date now => ⟨rfl, rfl⟩, fun now => rfl, fun d now => rfl, fun now => rfl,
    fun db date now uid => rfl, fun db date now uid => rfl, fun db date now uid => rfl,
    ?_, ?_⟩
  · intro date now e hu hl
    have hend : (meal_log_window date now).2 = (meal_log_window date now).1 + secondsPerDay := by
      cases date <;> rfl
    have hlt : e.logged_at < (meal_log_window date now).2 := by
      rw [hl, hend]
      unfold secondsPerDay
      omega
    unfold get_meal_log
    simp only [List.filter_cons, List.filter_nil]
    rw [if_pos (decide_eq_true ⟨hu, le_of_eq hl.symm, hlt⟩)]
    rfl
  · intro date now e hl
    have hend : (meal_log_window date now).2 = (meal_log_window date now).1 + secondsPerDay := by
      cases date <;> rfl
    unfold get_meal_log
    simp only [List.filter_cons, List.filter_nil]
    rw [if_neg ?ncond]
    · rfl
    case ncond =>
      intro hc
      have hp := of_decide_eq_true hc
      rw [hl, hend] at hp
      exact absurd hp.2.2 (lt_irrefl _)

/-- An entry timestamped exactly at the start of day 1. -/
def mealAtStart : MealEntry :=
  { mealDemoEntry with id := "m3", logged_at := 86400 }

/-- An entry timestamped exactly 24 h after the start of day 1. -/
def mealAtEnd : MealEntry :=
  { mealDemoEntry with id := "m4", logged_at := 172800 }

/-- Claim C5, witness: with the day-1 window, the entry at the window start
is returned and the entry at start + 24h is not. -/
theorem day_window_shared_witness :
    get_meal_log { emptyDB with meal_entries := [mealAtStart] } (some 1) 0 "u1" = [mealAtStart] ∧
    get_meal_log { emptyDB with meal_entries := [mealAtEnd] } (some 1) 0 "u1" = [] :=
  ⟨day_window_shared.2.2.2.2.2.2.2.1 (some 1) 0 mealAtStart rfl rfl,
   day_window_shared.2.2.2.2.2.2.2.2 (some 1) 0 mealAtEnd rfl⟩

/-! ## Claim C8 — duplicate registration -/

/-- Claim C8: after a successful registration, any second registration that
reuses the username or the email fails with the 400 conflict error,
whatever its other fields are — and, returning an error, it inserts no
account. -/
theorem register_conflict :
    ∀ (db : DB) (u1 u2 : UserCreate) (id1 hp1 id2 hp2 : String) (t1 t2 : ℤ)
      (db1 : DB) (tok : Jwt) (prof : UserProfile),
      register_user db u1 id1 hp1 t1 = Except.ok (db1, tok, prof) →
      (u2.username = u1.username ∨ u2.email = u1.email) →
      register_user db1 u2 id2 hp2 t2 =
        Except.error { status_code := 400, detail := "Username or email already exists" } := by
  intro db u1 u2 id1 hp1 id2 hp2 t1 t2 db1 tok prof hreg hdup
  unfold register_user at hreg
  by_cases hc :
    db.users.any (fun u => decide (u.username = u1.username ∨ u.email = u1.email)) = true
  · rw [if_pos hc] at hreg
    exact absurd hreg (by simp)
  · rw [if_neg hc] at hreg
    simp only [Except.ok.injEq, Prod.mk.injEq] at hreg
    obtain ⟨rfl, -, -⟩ := hreg
    unfold register_user
    rw [if_pos ?dup]
    case dup =>
      rw [List.any_append]
      rcases hdup with h | h <;> simp [h]

/-- The registration request used by the conflict witness. -/
def regReq1 : UserCreate :=
  { username := "alice", email := "alice@example.com", password := "pw1",
    full_name := "Alice A", age := 25, height := 175, weight := 70,
    goal_type := "maintenance", activity_level := "moderately_active" }

/-- A second request reusing the username with every other field changed. -/
def regReq2 : UserCreate :=
  { username := "alice", email := "other@example.com", password := "pw2",
    full_name := "Someone Else", age := 30, height := 160, weight := 60,
    goal_type := "endurance", activity_level := "sedentary" }

/-- The account stored by the first registration. -/
def user1FromReq : User :=
  { id := "id1", username := "alice", email := "alice@example.com", full_name := "Alice A",
    age := 25, height := 175, weight := 70, goal_type := "maintenance",
    activity_level := "moderately_active", password_hash := "hash1" }

/-- The database after the first registration. -/
def db1AfterReg : DB := { emptyDB with users := [user1FromReq] }

/-- The profile returned by the first registration. -/
def prof1 : UserProfile :=
  { id := "id1", username := "alice", email := "alice@example.com", full_name := "Alice A",
    age := 25, height := 175, weight := 70, goal_type := "maintenance",
    activity_level := "moderately_active", bmi := calculate_bmi 70 175,
    daily_calories := calculate_daily_calories user1FromReq }

/-- Claim C8, witness: registering `regReq1` into the empty database and
then `regReq2` (same username, all other fields different) yields the 400
conflict error. -/
theorem register_conflict_witness :
    register_user db1AfterReg regReq2 "id2" "hash2" 0 =
      Except.error { status_code := 400, detail := "Username or email already exists" } :=
  register_conflict emptyDB regReq1 regReq2 "id1" "hash1" "id2" "hash2" 0 0
    db1AfterReg (create_jwt_token 0 "id1") prof1 rfl (Or.inl rfl)

/-! ## Claim C10 — the 1000-document retrieval cap -/

/-- Claim C10: each list retrieval (`to_list(1000)`) returns exactly the
first 1000 matching documents — never more than 1000, with later matches
silently dropped rather than reported as an error. -/
theorem list_retrieval_cap :
    (∀ db : DB,
      get_food_items db = db.food_items.take 1000 ∧ (get_food_items db).length ≤ 1000) ∧
    (∀ (db : DB) (t : Option String),
      get_exercises db t = (db.exercises.filter (fun ex =>
        match t with
        | some ty => decide (ex.type = ty)
        | none => true)).take 1000 ∧
      (get_exercises db t).length ≤ 1000) ∧
    (∀ (db : DB) (date : Option ℕ) (now : ℕ) (uid : String),
      (get_meal_log db date now uid).length ≤ 1000) ∧
    (∀ (db : DB) (uid : String),
      get_user_goals db uid = (db.goals.filter (fun g => decide (g.user_id = uid))).take 1000 ∧
      (get_user_goals db uid).length ≤ 1000) := by
  refine ⟨fun db => ⟨rfl, ?_⟩, fun db t => ⟨rfl, ?_⟩, fun db date now uid => ?_,
    fun db uid => ⟨rfl, ?_⟩⟩
  · simp [get_food_items, List.length_take]
  · simp [get_exercises, List.length_take]
  · simp [get_meal_log, List.length_take]
  · simp [get_user_goals, List.length_take]

end AlphaFit

